import Mathlib

/-!
Shallow embedding of `src/run.py` (job-listing ETL pipeline:
fetch → transform → persist → upload) and verification of its
specification's testable properties.

The Python program uses `requests`, `pandas`, `collections.ChainMap` and
`boto3`.  The embedding models the pure data flow exactly as the libraries
behave on the code's inputs:

* `dict(ChainMap(m1, ..., mk))` iterates the maps in reverse order, so the
  column order of the DataFrame built at lines 58–66 is
  `publication_date, job_type, job, locations, company`.
* `Series.str.split(',', expand=True)` (line 68) splits on **every** comma;
  the expanded frame has as many columns as the maximum number of parts over
  all rows (zero columns for an empty frame), rows with fewer parts are
  padded with `None`.  The assignment `df[['city','country']] = ...` raises
  `ValueError` ("Columns must be same length as key") unless the expanded
  frame has exactly two columns.
* `.str[:10]` (line 67) is a Python slice: the first ten characters, or the
  whole string when it is shorter.
* `requests` exceptions carry `response = None` for network-level failures,
  so the handler at lines 30–35, which formats
  `err.response.status_code`, itself raises `AttributeError` there;
  `Response.raise_for_status` raises `HTTPError` (with the response
  attached) exactly for status codes in `[400, 600)`.
-/

/-- Python exception outcomes that the pipeline in `run.py` can produce. -/
inductive PyError where
  /-- `IndexError`: `result['locations'][0]` on an empty `locations` list (line 53). -/
  | indexError
  /-- `ValueError` "Columns must be same length as key": the split-expand frame
      at line 68 does not have exactly two columns. -/
  | valueError
  /-- `AttributeError`: line 32 evaluates `err.response.status_code` while
      `err.response` is `None`. -/
  | attributeError
  /-- `requests.exceptions.HTTPError` raised by `raise_for_status` (line 28),
      carrying the HTTP status code. -/
  | httpError (status : Nat)
  /-- An I/O error from `df.to_csv` (line 92). -/
  | ioError
  /-- A `boto3` error from `s3.upload_file` (line 117), including rejected
      credentials. -/
  | uploadError
  deriving Repr, DecidableEq

/-- One element of the API's `results` list, already shaped as the transformer
reads it: `company.name`, the `name` of each entry of `locations`, the job
`name`, its `type` and `publication_date` (lines 52–56). -/
structure RawRecord where
  company_name : String
  location_names : List String
  job_name : String
  job_type : String
  publication_date : String
  deriving Repr, DecidableEq

/-- One row of the transformed table.  `country` is an `Option` because the
pandas split pads missing parts with `None`. -/
structure JobRow where
  company : String
  job : String
  job_type : String
  publication_date : String
  city : String
  country : Option String
  deriving Repr, DecidableEq

/-- Python `str.split(',')` on the character list: split at every comma,
keeping empty parts. -/
def splitCommaAux : List Char → List Char → List (List Char)
  | [], acc => [acc.reverse]
  | c :: cs, acc =>
      if c = ',' then acc.reverse :: splitCommaAux cs []
      else splitCommaAux cs (c :: acc)

/-- Python `s.split(',')`, as used by `Series.str.split(',')` at line 68. -/
def splitComma (s : String) : List String :=
  (splitCommaAux s.data []).map (fun l => ⟨l⟩)

/-- Python `s[:10]`, the date truncation `df['publication_date'].str[:10]`
at line 67. -/
def pySlice10 (s : String) : String := ⟨s.data.take 10⟩

/-- The first entry of `locations`: `result['locations'][0]['name']`
(line 53).  Total helper; `transform_data` raises `IndexError` before it is
ever used on a record with empty `location_names`. -/
def first_location (r : RawRecord) : String := r.location_names.headD ""

/-- The row the transformer builds from one record and its first location
name: direct field copies, the date slice, and the comma split assigned
positionally to `city` (part 0) and `country` (part 1, `None` when absent)
— lines 52–68. -/
def row_of (r : RawRecord) (loc : String) : JobRow :=
  { company := r.company_name
    job := r.job_name
    job_type := r.job_type
    publication_date := pySlice10 r.publication_date
    city := (splitComma loc).headD ""
    country := (splitComma loc)[1]? }

/-- The row built from a record's own first location entry. -/
def rowOfRecord (r : RawRecord) : JobRow := row_of r (first_location r)

/-- The list comprehension at line 53: the first `locations` name of every
record, failing with `IndexError` at the first record whose `locations` is
empty. -/
def firstLocations : List RawRecord → Except PyError (List String)
  | [] => .ok []
  | r :: rs =>
      match r.location_names with
      | [] => .error .indexError
      | l :: _ =>
          match firstLocations rs with
          | .error e => .error e
          | .ok ls => .ok (l :: ls)

/-- Number of columns of `df['locations'].str.split(',', expand=True)`
(line 68): the maximum part count over all rows, `0` for an empty frame. -/
def expandWidth (locs : List String) : Nat :=
  (locs.map (fun l => (splitComma l).length)).foldr max 0

/-- `transform_data` (lines 38–75): extract the five field lists, truncate the
date, split the location and assign `city`/`country`.  The assignment
`df[['city','country']] = df['locations'].str.split(',', expand=True)`
succeeds only when the expanded frame has exactly two columns; otherwise
pandas raises `ValueError` ("Columns must be same length as key"). -/
def transform_data (results : List RawRecord) : Except PyError (List JobRow) :=
  match firstLocations results with
  | .error e => .error e
  | .ok locs =>
      if expandWidth locs = 2 then .ok (List.zipWith row_of results locs)
      else .error .valueError

/-- Key iteration order of Python's `dict(ChainMap(m1, ..., mk))`:
`ChainMap.__iter__` updates a fresh dict from the maps in **reverse** order,
so keys appear in first-occurrence order of the reversed concatenation. -/
def chainMapKeys (maps : List (List String)) : List String :=
  (maps.reverse.flatten).foldl (fun acc k => if k ∈ acc then acc else acc ++ [k]) []

/-- Column order of the DataFrame built at lines 58–66. -/
def initialColumns : List String :=
  chainMapKeys [["company"], ["locations"], ["job"], ["job_type"], ["publication_date"]]

/-- Column order after `df[['city','country']] = ...` appends the two new
columns (line 68) and `df.drop('locations', axis=1)` removes `locations`
(line 69). -/
def finalColumns : List String :=
  (initialColumns ++ ["city", "country"]).filter (fun c => c ≠ "locations")

/-- The cell a `JobRow` holds for a given column name; pandas serialises the
`None` country as an empty field. -/
def fieldOf (row : JobRow) : String → String
  | "company" => row.company
  | "job" => row.job
  | "job_type" => row.job_type
  | "publication_date" => row.publication_date
  | "city" => row.city
  | "country" => row.country.getD ""
  | _ => ""

/-- Whether csv `QUOTE_MINIMAL` quoting applies to a field. -/
def needsQuoting (s : String) : Bool :=
  s.data.any (fun c => c = ',' || c = '"' || c = '\n' || c = '\r')

/-- Double every quote character, per standard csv escaping. -/
def escapeQuotes : List Char → List Char
  | [] => []
  | c :: cs =>
      if c = '"' then '"' :: '"' :: escapeQuotes cs
      else c :: escapeQuotes cs

/-- One csv field, quoted when it contains a delimiter, quote or newline. -/
def csvField (s : String) : String :=
  if needsQuoting s then ⟨'"' :: (escapeQuotes s.data ++ ['"'])⟩ else s

/-- One csv line: comma-separated fields terminated by a newline. -/
def csvLine (cells : List String) : String :=
  String.intercalate "," (cells.map csvField) ++ "\n"

/-- `df.to_csv(file_name, index=False)` (line 92): the header line of the
DataFrame's columns followed by one line per row, cells in column order. -/
def to_csv (table : List JobRow) : String :=
  csvLine finalColumns ++
    String.join (table.map (fun row => csvLine (finalColumns.map (fieldOf row))))

/-- The first line of a file's contents (up to the first newline). -/
def first_line (s : String) : String := ⟨s.data.takeWhile (fun c => c ≠ '\n')⟩

/-- Outcome of the HTTP GET at line 27, as `requests` reports it. -/
inductive HttpOutcome where
  /-- A network-level failure (DNS, connection refused, timeout): a
      `requests.exceptions.RequestException` whose `response` is `None`. -/
  | networkFailure
  /-- A response was obtained with the given status code; `body` is the parsed
      `results` list when the body is valid JSON of the expected shape, and
      `none` when it is not valid JSON. -/
  | response (status : Nat) (body : Option (List RawRecord))

/-- `read_api` (lines 13–35).  `raise_for_status` raises `HTTPError`
exactly for statuses in `[400, 600)`, and that error carries the response,
so the handler logs and re-raises it.  For a network failure, and for an
invalid JSON body under `requests ≥ 2.27` (where `Response.json` raises a
`RequestException` built without a response), `err.response` is `None`, so
the handler's f-string itself raises `AttributeError`. -/
def read_api : HttpOutcome → Except PyError (List RawRecord)
  | .networkFailure => .error .attributeError
  | .response status body =>
      if 400 ≤ status ∧ status < 600 then .error (.httpError status)
      else
        match body with
        | some data => .ok data
        | none => .error .attributeError

/-- `save_to_csv` (lines 77–95): writes `to_csv df` to the file, or fails
with an I/O error. -/
def save_to_csv (writeOk : Bool) (df : List JobRow) : Except PyError String :=
  if writeOk then .ok (to_csv df) else .error .ioError

/-- `upload_to_s3` (lines 98–120): succeeds exactly when S3 accepts the
upload with the supplied (possibly absent) credentials. -/
def upload_to_s3 (accepts : Option String → Option String → Bool)
    (access_key secret_access_key : Option String) : Except PyError Unit :=
  if accepts access_key secret_access_key then .ok () else .error .uploadError

/-- The four pipeline stages of `main`. -/
inductive Stage where
  | fetch
  | transform
  | persist
  | upload
  deriving Repr, DecidableEq

/-- The external world `main` runs against: the HTTP outcome, whether the
local write succeeds, what `os.getenv` returns for the two credentials
(lines 148–149; `None` when the variable is absent), and which credential
pairs S3 accepts. -/
structure Env where
  http : HttpOutcome
  writeOk : Bool
  access_key : Option String
  secret_access_key : Option String
  s3Accepts : Option String → Option String → Bool

/-- Observable effects of a run: the local file's contents if one was
written, and which stages were entered. -/
structure World where
  fileWritten : Option String
  trace : List Stage
  deriving Repr, DecidableEq

/-- `main` (lines 123–158): fetch, transform, persist, upload, in order; the
first failure propagates (re-raised at line 158, so the process exits
non-zero) and aborts the remaining stages.  No stage removes the file once
written. -/
def mainProgram (env : Env) : Except PyError Unit × World :=
  match read_api env.http with
  | .error e => (.error e, { fileWritten := none, trace := [Stage.fetch] })
  | .ok data =>
      match transform_data data with
      | .error e =>
          (.error e, { fileWritten := none, trace := [Stage.fetch, Stage.transform] })
      | .ok df =>
          match save_to_csv env.writeOk df with
          | .error e =>
              (.error e,
                { fileWritten := none
                  trace := [Stage.fetch, Stage.transform, Stage.persist] })
          | .ok contents =>
              match upload_to_s3 env.s3Accepts env.access_key env.secret_access_key with
              | .error e =>
                  (.error e,
                    { fileWritten := some contents
                      trace := [Stage.fetch, Stage.transform, Stage.persist, Stage.upload] })
              | .ok _ =>
                  (.ok (),
                    { fileWritten := some contents
                      trace := [Stage.fetch, Stage.transform, Stage.persist, Stage.upload] })

/-- A record is valid in the sense of the spec's data model (§3): it has at
least one `locations` entry and that entry's name has the
`"<city>, <country>"` shape, i.e. exactly one comma (the comma split yields
exactly two parts). -/
def ValidRecord (r : RawRecord) : Prop :=
  r.location_names ≠ [] ∧ (splitComma (first_location r)).length = 2

instance (r : RawRecord) : Decidable (ValidRecord r) := by
  unfold ValidRecord; infer_instance

/-! ## Concrete records used as witnesses and counterexamples -/

/-- The spec's §8 example record (`"NYC, USA"`, date `2023-05-01T00:00:00`). -/
def acmeRecord : RawRecord :=
  { company_name := "Acme"
    location_names := ["NYC, USA"]
    job_name := "Engineer"
    job_type := "full_time"
    publication_date := "2023-05-01T00:00:00" }

/-- A record whose first location name has two commas. -/
def multiCommaRecord : RawRecord :=
  { acmeRecord with location_names := ["NYC, NY, USA"] }

/-- The spec's `"Berlin, Germany"` example. -/
def berlinRecord : RawRecord :=
  { company_name := "X"
    location_names := ["Berlin, Germany"]
    job_name := "Dev"
    job_type := "full_time"
    publication_date := "2023-01-02T03:04:05" }

/-- A record whose `publication_date` is exactly ten characters long. -/
def tenCharDateRecord : RawRecord :=
  { acmeRecord with publication_date := "2023-05-01" }

/-- A record whose `publication_date` is shorter than ten characters. -/
def shortDateRecord : RawRecord :=
  { acmeRecord with publication_date := "2023" }

/-! ## Helper lemmas -/

/-- `String.length` is the length of the character list. -/
theorem strLength (s : String) : s.length = s.data.length := rfl

/-- Splitting a character list that contains exactly one comma. -/
theorem splitCommaAux_append (b : List Char) :
    ∀ (a acc : List Char), ',' ∉ a →
      splitCommaAux (a ++ ',' :: b) acc = (acc.reverse ++ a) :: splitCommaAux b [] := by
  intro a
  induction a with
  | nil => intro acc _; simp [splitCommaAux]
  | cons c a ih =>
      intro acc hmem
      have hc : ¬ c = ',' := by
        intro h; exact hmem (by simp [h])
      have ha : ',' ∉ a := by
        intro h; exact hmem (List.mem_cons_of_mem _ h)
      simp only [List.cons_append, splitCommaAux, if_neg hc, List.append_eq,
        ih (c :: acc) ha, List.reverse_cons, List.append_assoc, List.cons_append,
        List.nil_append]

/-- Splitting a comma-free character list yields the single accumulated part. -/
theorem splitCommaAux_no_comma :
    ∀ (b acc : List Char), ',' ∉ b → splitCommaAux b acc = [acc.reverse ++ b] := by
  intro b
  induction b with
  | nil => intro acc _; simp [splitCommaAux]
  | cons c b ih =>
      intro acc hmem
      have hc : ¬ c = ',' := by
        intro h; exact hmem (by simp [h])
      have hb : ',' ∉ b := by
        intro h; exact hmem (List.mem_cons_of_mem _ h)
      simp only [splitCommaAux, if_neg hc, ih (c :: acc) hb, List.reverse_cons,
        List.append_assoc, List.cons_append, List.nil_append]

/-- Python `split(',')` of a string with exactly one comma is the two
surrounding parts. -/
theorem splitComma_one_comma (s : String) (a b : List Char)
    (hdata : s.data = a ++ ',' :: b) (ha : ',' ∉ a) (hb : ',' ∉ b) :
    splitComma s = [⟨a⟩, ⟨b⟩] := by
  unfold splitComma
  rw [hdata, splitCommaAux_append b a [] ha, splitCommaAux_no_comma b [] hb]
  simp

/-- The line-53 comprehension succeeds on records with non-empty `locations`
and returns each record's first location name, in order. -/
theorem firstLocations_ok (results : List RawRecord)
    (h : ∀ r ∈ results, r.location_names ≠ []) :
    firstLocations results = .ok (results.map first_location) := by
  induction results with
  | nil => rfl
  | cons r rs ih =>
      have hr := h r (List.mem_cons_self r rs)
      have hrs := ih (fun x hx => h x (List.mem_cons_of_mem r hx))
      cases hloc : r.location_names with
      | nil => exact absurd hloc hr
      | cons l t =>
          simp only [firstLocations, hloc, hrs, List.map, first_location, hloc,
            List.headD]

/-- A fold of `max` over a non-empty list of `2`s is `2`. -/
theorem foldr_max_two (l : List Nat) (hne : l ≠ []) (h : ∀ x ∈ l, x = 2) :
    l.foldr max 0 = 2 := by
  induction l with
  | nil => exact absurd rfl hne
  | cons x xs ih =>
      have hx := h x (List.mem_cons_self x xs)
      cases xs with
      | nil => simp [hx]
      | cons y ys =>
          have := ih (by simp) (fun z hz => h z (List.mem_cons_of_mem x hz))
          simp [hx, this]

/-- Zipping each record with its own first location collapses to a map. -/
theorem zipWith_rowOfRecord (results : List RawRecord) :
    List.zipWith row_of results (results.map first_location) =
      results.map rowOfRecord := by
  induction results with
  | nil => rfl
  | cons r rs ih => simp [List.zipWith, ih, rowOfRecord]

/-- On a non-empty list of valid records the transformer succeeds and returns
exactly the per-record rows, in order. -/
theorem transform_data_valid (results : List RawRecord)
    (hne : results ≠ []) (hval : ∀ r ∈ results, ValidRecord r) :
    transform_data results = .ok (results.map rowOfRecord) := by
  have hlocs : firstLocations results = .ok (results.map first_location) :=
    firstLocations_ok results (fun r hr => (hval r hr).1)
  have hwidth : expandWidth (results.map first_location) = 2 := by
    unfold expandWidth
    refine foldr_max_two _ ?_ ?_
    · simp [hne]
    · intro x hx
      rw [List.map_map] at hx
      obtain ⟨r, hr, hxr⟩ := List.mem_map.mp hx
      rw [← hxr]
      exact (hval r hr).2
  unfold transform_data
  rw [hlocs]
  simp [hwidth, zipWith_rowOfRecord]

/-! ## Claim theorems -/

/-- C1 (amended): for every **non-empty** `results` list containing only valid
RawRecords (non-empty `locations`, first location name of the
`"<city>, <country>"` one-comma shape), the Transformer produces exactly one
JobRow per RawRecord, in the same order as the input list — the output is
literally the element-wise map of the per-record row construction, so there
is no filtering, no deduplication and no sorting. -/
theorem transform_one_row_per_record (results : List RawRecord)
    (hne : results ≠ []) (hval : ∀ r ∈ results, ValidRecord r) :
    transform_data results = .ok (results.map rowOfRecord) :=
  transform_data_valid results hne hval

/-- Witness for C1: the spec's §8 example record goes through as one row. -/
theorem transform_one_row_per_record_witness :
    transform_data [acmeRecord] = .ok ([acmeRecord].map rowOfRecord) :=
  transform_one_row_per_record [acmeRecord] (by decide) (by decide)

/-- Counterexample to C1 as stated: the empty `results` list contains only
valid RawRecords (vacuously), yet the Transformer raises `ValueError`
(`df[['city','country']] = ...` with a zero-column expanded frame) instead of
producing zero JobRows. -/
theorem transform_empty_valid_but_fails :
    (∀ r ∈ ([] : List RawRecord), ValidRecord r) ∧
      transform_data ([] : List RawRecord) = .error PyError.valueError :=
  ⟨by simp, rfl⟩

/-- C2 (amended): the persisted file starts with a header row of the six
column names in the fixed order
`publication_date, job_type, job, company, city, country` (the order induced
by `dict(ChainMap(...))` plus the column assignment and drop), followed by
exactly one csv line per JobRow, cells in that same column order. -/
theorem to_csv_header_and_rows (table : List JobRow) :
    to_csv table =
      "publication_date,job_type,job,company,city,country\n" ++
        String.join (table.map (fun row =>
          csvLine [row.publication_date, row.job_type, row.job, row.company,
            row.city, row.country.getD ""])) := rfl

/-- Counterexample to C2 as stated: on a concrete one-row table the header
line is `publication_date,job_type,job,company,city,country`, not the claimed
`company,job,job_type,publication_date,city,country`. -/
theorem csv_header_not_spec_order :
    first_line (to_csv [rowOfRecord acmeRecord]) =
        "publication_date,job_type,job,company,city,country" ∧
      first_line (to_csv [rowOfRecord acmeRecord]) ≠
        "company,job,job_type,publication_date,city,country" :=
  ⟨rfl, by decide⟩

/-- C3 (amended): the split at line 68 is on **every** comma, and the
two-column assignment succeeds per record exactly in the one-comma case:
for a record whose first location name is `a ++ "," ++ b` with `a`, `b`
comma-free, the Transformer yields `city = a` and `country = b` (leading
whitespace of `b` untrimmed). -/
theorem location_split_one_comma (r : RawRecord) (a b : List Char)
    (hloc : r.location_names ≠ [])
    (hdata : (first_location r).data = a ++ ',' :: b)
    (ha : ',' ∉ a) (hb : ',' ∉ b) :
    transform_data [r] = .ok [rowOfRecord r] ∧
      (rowOfRecord r).city = ⟨a⟩ ∧ (rowOfRecord r).country = some ⟨b⟩ := by
  have hsplit : splitComma (first_location r) = [⟨a⟩, ⟨b⟩] :=
    splitComma_one_comma (first_location r) a b hdata ha hb
  refine ⟨?_, ?_, ?_⟩
  · exact transform_data_valid [r] (by simp)
      (by
        intro x hx
        rw [List.mem_singleton] at hx
        subst hx
        exact ⟨hloc, by rw [hsplit]; rfl⟩)
  · simp [rowOfRecord, row_of, hsplit]
  · simp [rowOfRecord, row_of, hsplit]

/-- Witness for C3: splitting `"Berlin, Germany"` yields `city = "Berlin"`
and `country = " Germany"` with the leading space kept. -/
theorem location_split_one_comma_witness :
    transform_data [berlinRecord] = .ok [rowOfRecord berlinRecord] ∧
      (rowOfRecord berlinRecord).city = "Berlin" ∧
      (rowOfRecord berlinRecord).country = some " Germany" :=
  location_split_one_comma berlinRecord "Berlin".data " Germany".data
    (by decide) (by decide) (by decide) (by decide)

/-- Counterexample to C3 as stated: a first location name with two commas
(`"NYC, NY, USA"`) does not yield `city = "NYC"`, `country = " NY, USA"` —
the split-expand frame has three columns and the Transformer raises
`ValueError` instead. -/
theorem transform_two_commas_fails :
    transform_data [multiCommaRecord] = .error PyError.valueError := rfl

/-- C4: the date truncation `.str[:10]` is unconditional slicing — on a
`publication_date` shorter than 10 characters the output row keeps the whole
(shorter) string rather than failing, and on a string of length at least 10
it keeps exactly the first 10 characters. -/
theorem date_truncation_take_ten (r : RawRecord) :
    (r.publication_date.length < 10 →
        (rowOfRecord r).publication_date = r.publication_date) ∧
      (10 ≤ r.publication_date.length →
        ((rowOfRecord r).publication_date).data = r.publication_date.data.take 10 ∧
          ((rowOfRecord r).publication_date).length = 10) := by
  constructor
  · intro hlt
    show pySlice10 r.publication_date = r.publication_date
    unfold pySlice10
    rw [List.take_of_length_le (by rw [strLength] at hlt; omega)]
  · intro hge
    refine ⟨rfl, ?_⟩
    show (r.publication_date.data.take 10).length = 10
    rw [List.length_take, strLength] at *
    omega

/-- Witness for C4: a 4-character date passes through whole; a 19-character
date is cut to its first 10 characters. -/
theorem date_truncation_take_ten_witness :
    (rowOfRecord shortDateRecord).publication_date = shortDateRecord.publication_date ∧
      ((rowOfRecord acmeRecord).publication_date).data =
        acmeRecord.publication_date.data.take 10 :=
  ⟨(date_truncation_take_ten shortDateRecord).1 (by decide),
    ((date_truncation_take_ten acmeRecord).2 (by decide)).1⟩

/-- C5 (amended): the output `publication_date` is always at most 10
characters long and is a prefix of the input date string; it is a **strict**
prefix exactly when the input is longer than 10 characters (a date of at most
10 characters is copied whole, hence equal to the input, not strictly below
it). -/
theorem pubdate_prefix_le_ten (r : RawRecord) :
    ((rowOfRecord r).publication_date).length ≤ 10 ∧
      ((rowOfRecord r).publication_date).data <+: r.publication_date.data ∧
      (10 < r.publication_date.length →
        (rowOfRecord r).publication_date ≠ r.publication_date) := by
  refine ⟨?_, ?_, ?_⟩
  · show (r.publication_date.data.take 10).length ≤ 10
    rw [List.length_take]
    omega
  · exact ⟨r.publication_date.data.drop 10, List.take_append_drop 10 _⟩
  · intro hlen heq
    have hdata : r.publication_date.data.take 10 = r.publication_date.data :=
      congrArg String.data heq
    have := congrArg List.length hdata
    rw [List.length_take, strLength] at *
    omega

/-- Witness for C5: on the 19-character date of the §8 example record the
truncated output differs from the input, i.e. the prefix is strict there. -/
theorem pubdate_prefix_le_ten_witness :
    (rowOfRecord acmeRecord).publication_date ≠ acmeRecord.publication_date :=
  (pubdate_prefix_le_ten acmeRecord).2.2 (by decide)

/-- Counterexample to C5 as stated: on a record whose `publication_date` is
exactly `"2023-05-01"` (10 characters) the output equals the input, so it is
a prefix but **not** a strict prefix. -/
theorem pubdate_not_strict_prefix :
    transform_data [tenCharDateRecord] = .ok [rowOfRecord tenCharDateRecord] ∧
      (rowOfRecord tenCharDateRecord).publication_date =
        tenCharDateRecord.publication_date ∧
      ¬ (rowOfRecord tenCharDateRecord).publication_date ≠
          tenCharDateRecord.publication_date :=
  ⟨rfl, rfl, fun h => h rfl⟩

/-- The environment of the empty-`results` scenario: HTTP 200 with body
`{"results": []}`, writable disk, credentials present and accepted. -/
def emptyResultsEnv : Env :=
  { http := .response 200 (some [])
    writeOk := true
    access_key := some "AK"
    secret_access_key := some "SK"
    s3Accepts := fun _ _ => true }

/-- C6: on the empty `results` list the Transformer raises `ValueError`
(`str.split(..., expand=True)` on an empty column yields a zero-column frame,
so the two-column assignment fails), the run aborts with that error and no
local file is written — there is no header-only output file. -/
theorem empty_results_pipeline_crashes :
    transform_data ([] : List RawRecord) = .error PyError.valueError ∧
      (mainProgram emptyResultsEnv).1 = .error PyError.valueError ∧
      (mainProgram emptyResultsEnv).2.fileWritten = none :=
  ⟨rfl, rfl, rfl⟩

/-- C7: on a network-level failure (`requests` raises a `RequestException`
whose `response` is `None`) the Fetcher does not log-and-re-raise the network
error: the handler's own f-string `err.response.status_code` raises
`AttributeError`, replacing the original failure. -/
theorem network_failure_raises_attribute_error :
    read_api HttpOutcome.networkFailure = .error PyError.attributeError := rfl

/-- C8 (amended): for every HTTP response whose status is in the 4xx/5xx
range — the range where `raise_for_status` raises — the Fetcher fails with
`HttpError` carrying the status code, the pipeline aborts before the
transformation stage runs, and no local file is written. -/
theorem http_4xx_5xx_aborts (env : Env) (status : Nat)
    (body : Option (List RawRecord))
    (hhttp : env.http = .response status body)
    (hlo : 400 ≤ status) (hhi : status < 600) :
    (mainProgram env).1 = .error (PyError.httpError status) ∧
      (mainProgram env).2.fileWritten = none ∧
      Stage.transform ∉ (mainProgram env).2.trace := by
  have hra : read_api env.http = .error (.httpError status) := by
    rw [hhttp]
    simp [read_api, hlo, hhi]
  refine ⟨?_, ?_, ?_⟩ <;> simp [mainProgram, hra]

/-- The environment of the §8 scenario: the server answers 404. -/
def notFoundEnv : Env :=
  { http := .response 404 (some [])
    writeOk := true
    access_key := some "AK"
    secret_access_key := some "SK"
    s3Accepts := fun _ _ => true }

/-- Witness for C8: on a 404 response the run fails with `HttpError 404`,
the transform stage is never entered and no file is written. -/
theorem http_4xx_5xx_aborts_witness :
    (mainProgram notFoundEnv).1 = .error (PyError.httpError 404) ∧
      (mainProgram notFoundEnv).2.fileWritten = none ∧
      Stage.transform ∉ (mainProgram notFoundEnv).2.trace :=
  http_4xx_5xx_aborts notFoundEnv 404 (some []) rfl (by decide) (by decide)

/-- An environment whose server answers 304 (a non-2xx status outside the
`raise_for_status` range) with a parseable body. -/
def redirectStatusEnv : Env :=
  { http := .response 304 (some [acmeRecord])
    writeOk := true
    access_key := some "AK"
    secret_access_key := some "SK"
    s3Accepts := fun _ _ => true }

/-- Counterexample to C8 as stated: a 304 response is non-2xx, yet the
Fetcher does not fail with `HttpError` — `raise_for_status` only raises for
4xx/5xx — so the transformation stage runs and a local file is written. -/
theorem non2xx_304_not_http_error :
    read_api redirectStatusEnv.http = .ok [acmeRecord] ∧
      Stage.transform ∈ (mainProgram redirectStatusEnv).2.trace ∧
      (mainProgram redirectStatusEnv).2.fileWritten ≠ none :=
  ⟨rfl, by decide, by decide⟩

/-- C9: whenever the fetch, transform and local write succeed but the upload
fails (for example on bad credentials), the run ends with the upload error —
the process exits non-zero — while the already-written local file remains on
disk with its contents unchanged: no cleanup or rollback of the completed
persist stage. -/
theorem upload_failure_keeps_local_file (env : Env) (data : List RawRecord)
    (df : List JobRow)
    (hfetch : read_api env.http = .ok data)
    (htrans : transform_data data = .ok df)
    (hwrite : env.writeOk = true)
    (hupload : env.s3Accepts env.access_key env.secret_access_key = false) :
    (mainProgram env).1 = .error PyError.uploadError ∧
      (mainProgram env).2.fileWritten = some (to_csv df) := by
  constructor <;>
    simp [mainProgram, hfetch, htrans, save_to_csv, hwrite, upload_to_s3, hupload]

/-- An environment where everything works except that S3 rejects the
credentials. -/
def badCredsEnv : Env :=
  { http := .response 200 (some [acmeRecord])
    writeOk := true
    access_key := some "AK"
    secret_access_key := some "WRONG"
    s3Accepts := fun _ _ => false }

/-- Witness for C9: with rejected credentials the run fails with the upload
error and the csv written from the §8 example row is still on disk. -/
theorem upload_failure_keeps_local_file_witness :
    (mainProgram badCredsEnv).1 = .error PyError.uploadError ∧
      (mainProgram badCredsEnv).2.fileWritten = some (to_csv [rowOfRecord acmeRecord]) :=
  upload_failure_keeps_local_file badCredsEnv [acmeRecord] [rowOfRecord acmeRecord]
    rfl rfl rfl rfl

/-- C10: when `os.getenv` returns `None` for `ACCESS_KEY` or for
`SECRET_ACCESS_KEY` (the secret is absent from the environment), the
orchestrator raises no configuration-time error: the run still reaches the
upload stage, the credentials — including the absent one, as `None` — are
passed through unchanged to `upload_to_s3`, and the only error such a run can
end with is the upload-stage error. -/
theorem missing_secret_passes_none (env : Env) (data : List RawRecord)
    (df : List JobRow)
    (hfetch : read_api env.http = .ok data)
    (htrans : transform_data data = .ok df)
    (hwrite : env.writeOk = true)
    (hkey : env.access_key = none ∨ env.secret_access_key = none) :
    (mainProgram env).1 =
        upload_to_s3 env.s3Accepts env.access_key env.secret_access_key ∧
      Stage.upload ∈ (mainProgram env).2.trace ∧
      ∀ e, (mainProgram env).1 = .error e → e = PyError.uploadError := by
  have hmain : mainProgram env =
      (match upload_to_s3 env.s3Accepts env.access_key env.secret_access_key with
        | .error e =>
            (.error e,
              { fileWritten := some (to_csv df)
                trace := [Stage.fetch, Stage.transform, Stage.persist, Stage.upload] })
        | .ok _ =>
            (.ok (),
              { fileWritten := some (to_csv df)
                trace := [Stage.fetch, Stage.transform, Stage.persist, Stage.upload] })) := by
    simp [mainProgram, hfetch, htrans, save_to_csv, hwrite]
  cases hup : upload_to_s3 env.s3Accepts env.access_key env.secret_access_key with
  | error e =>
      rw [hmain, hup]
      refine ⟨rfl, by simp, ?_⟩
      intro e' he'
      have he : e' = e := by
        exact (Except.error.injEq _ _).mp he'.symm
      rw [he]
      unfold upload_to_s3 at hup
      by_cases hacc : env.s3Accepts env.access_key env.secret_access_key = true
      · rw [if_pos hacc] at hup; exact absurd hup (by simp)
      · rw [if_neg hacc] at hup
        exact (Except.error.injEq _ _).mp hup.symm
  | ok u =>
      rw [hmain, hup]
      exact ⟨by rfl, by simp, fun e' he' => absurd he' (by simp)⟩

/-- An environment where `ACCESS_KEY` is absent (`SECRET_ACCESS_KEY` present)
and S3 accepts an upload only when both credentials are present. -/
def missingKeyEnv : Env :=
  { http := .response 200 (some [acmeRecord])
    writeOk := true
    access_key := none
    secret_access_key := some "SK"
    s3Accepts := fun ak sk => ak.isSome && sk.isSome }

/-- An environment where `SECRET_ACCESS_KEY` is absent (`ACCESS_KEY` present)
and S3 accepts an upload only when both credentials are present. -/
def missingSecretEnv : Env :=
  { http := .response 200 (some [acmeRecord])
    writeOk := true
    access_key := some "AK"
    secret_access_key := none
    s3Accepts := fun ak sk => ak.isSome && sk.isSome }

/-- Witness for C10, covering both disjuncts: with `ACCESS_KEY` absent, and
likewise with `SECRET_ACCESS_KEY` absent, the run does not fail before the
upload stage; it reaches the upload with the `None` credential and only then
fails, with the upload-stage error. -/
theorem missing_secret_passes_none_witness :
    ((mainProgram missingKeyEnv).1 = .error PyError.uploadError ∧
        Stage.upload ∈ (mainProgram missingKeyEnv).2.trace) ∧
      ((mainProgram missingSecretEnv).1 = .error PyError.uploadError ∧
        Stage.upload ∈ (mainProgram missingSecretEnv).2.trace) :=
  ⟨⟨((missing_secret_passes_none missingKeyEnv [acmeRecord]
          [rowOfRecord acmeRecord] rfl rfl rfl (Or.inl rfl)).1).trans rfl,
      (missing_secret_passes_none missingKeyEnv [acmeRecord]
          [rowOfRecord acmeRecord] rfl rfl rfl (Or.inl rfl)).2.1⟩,
    ⟨((missing_secret_passes_none missingSecretEnv [acmeRecord]
          [rowOfRecord acmeRecord] rfl rfl rfl (Or.inr rfl)).1).trans rfl,
      (missing_secret_passes_none missingSecretEnv [acmeRecord]
          [rowOfRecord acmeRecord] rfl rfl rfl (Or.inr rfl)).2.1⟩⟩
